import Mathlib

/-!
Shallow embedding of the mash shell (src/main.rs): command parsing,
the `cd` built-in of `Shell::execute`, the fork/exec/wait launcher
`Command::execute_external`, startup (`Shell::default`) and one step of the
`main` read-eval loop.  Paths are modelled as strings with Unix semantics,
and the operating system (path canonicalization, chdir, fork, wait, execvp)
is an explicit oracle passed to each operation.
-/

namespace Mash

/-- A path is its string.  On Unix a path is relative iff it does not start
with the separator character; this models Rust `Path::is_relative`.
(Stated on the character list so that it reduces in the kernel.) -/
def isRelative (p : String) : Bool :=
  match p.data with
  | [] => true
  | c :: _ => c != '/'

/-- Rust `PathBuf::push` with a relative argument: append, inserting a
separator unless the base is empty or already ends in one. -/
def pushPath (base p : String) : String :=
  if base.data.isEmpty then p
  else if base.data.getLast? == some '/' then base ++ p
  else base ++ "/" ++ p

/-- The path mutation of the `cd` arm for a supplied argument `p`
(src/main.rs lines 31-35): `self.path.push(path)` when relative,
`self.path = path` when absolute. -/
def cdApplyArg (cur p : String) : String :=
  if isRelative p then pushPath cur p else p

/-- Rust `CString::new` fails exactly when the string contains a NUL byte. -/
def hasNul (s : String) : Bool := s.data.any (fun c => c == Char.ofNat 0)

/-- The parsed command: `Command { name, args }` of src/main.rs. -/
structure Command where
  name : String
  args : List String
deriving DecidableEq, Repr

/-- Rust `str::split_whitespace` on the character list: maximal runs of
non-whitespace characters, in order; `acc` holds the current token reversed. -/
def splitWhitespaceAux : List Char → List Char → List String
  | [], acc => if acc.isEmpty then [] else [String.mk acc.reverse]
  | c :: cs, acc =>
      if c.isWhitespace then
        if acc.isEmpty then splitWhitespaceAux cs []
        else String.mk acc.reverse :: splitWhitespaceAux cs []
      else splitWhitespaceAux cs (c :: acc)

/-- Rust `str::split_whitespace`, collected to a list. -/
def splitWhitespace (s : String) : List String := splitWhitespaceAux s.data []

/-- Rust `str::trim`: drop leading and trailing whitespace.  (Stated on the
character list so that it reduces in the kernel.) -/
def trimStr (s : String) : String :=
  String.mk (((s.data.dropWhile Char.isWhitespace).reverse.dropWhile
    Char.isWhitespace).reverse)

/-- `Command::parse` (src/main.rs lines 66-71): split on whitespace, the
first token (or "" when there is none) is the name, the rest the args. -/
def Command.parse (line : String) : Command :=
  let parts := splitWhitespace line
  ⟨parts.headD "", parts.tail⟩

/-- The shell session state `Shell { prompt, path, home }` of src/main.rs.
`current_command` is threaded as an explicit argument to `execute` instead
of a field. -/
structure Shell where
  prompt : String
  path : String
  home : String
deriving DecidableEq, Repr

/-- Which branch a `fork()` call lands this evaluation in: the parent, the
child, or a failed fork (no child created). -/
inductive ForkOutcome where
  | parent
  | child
  | fail
deriving DecidableEq, Repr

/-- Outcome of the parent's `wait()`: the child's status, or an OS error. -/
inductive WaitRes where
  | ok (status : Nat)
  | err (msg : String)
deriving DecidableEq, Repr

/-- The operating-system oracle: path canonicalization (`None` models the
`std::fs::canonicalize` error for a missing or inaccessible path), `chdir`
success, the branch taken by `fork`, the `wait` result and `execvp` success. -/
structure FS where
  canonicalize : String → Option String
  chdirOk : String → Bool
  forkOutcome : ForkOutcome
  waitResult : WaitRes
  execvpOk : String → List String → Bool

/-- Rust `Result<(), String>` as returned by `execute` and
`execute_external`. -/
inductive ShellResult where
  | ok
  | err (msg : String)
deriving DecidableEq, Repr

/-- What a call to `Command::execute_external` does, seen from the process
executing it: `ret` means the function returns to its caller (the parent
after `wait`, a failed fork, or the child falling back into shell code via
`?`), `replaced` means the child's image was replaced by `execvp`, and
`exited` means the process terminated via `std::process::exit`. -/
inductive LaunchResult where
  | ret (r : ShellResult)
  | replaced (name : String) (argv : List String)
  | exited (code : Nat)
deriving DecidableEq, Repr

/-- The child branch of `execute_external` (src/main.rs lines 81-87):
`chdir(workdir)?`, `CString::new(name)?`, the args mapped through
`CString::new(..).log_expect(..)` (which exits with status 1 on failure),
`args.insert(0, cmd)`, then `execvp(&cmd, &args)?`.  Note the `?` operators:
every failure except an argument NUL byte RETURNS the error to the caller
inside the child. -/
def childBranch (fs : FS) (c : Command) (workdir : String) : LaunchResult :=
  if fs.chdirOk workdir = false then .ret (.err "child chdir failed")
  else if hasNul c.name then .ret (.err "nul byte in command name")
  else if c.args.any hasNul then .exited 1
  else if fs.execvpOk c.name (c.name :: c.args) then .replaced c.name (c.name :: c.args)
  else .ret (.err "execvp failed")

/-- `Command::execute_external` (src/main.rs lines 74-94): fork; the parent
waits (discarding the wait status) and returns `Ok(())`; a failed fork
returns an error; the child runs `childBranch`. -/
def executeExternal (fs : FS) (c : Command) (workdir : String) : LaunchResult :=
  match fs.forkOutcome with
  | .fail => .ret (.err "Failed to fork process")
  | .parent =>
      match fs.waitResult with
      | .ok _ => .ret .ok
      | .err e => .ret (.err e)
  | .child => childBranch fs c workdir

/-- Outcome of `Shell::execute` as seen by the process executing it, in the
same three modes as `LaunchResult`, with the (possibly mutated) session
state on return. -/
inductive ExecOutcome where
  | ret (sh : Shell) (r : ShellResult)
  | replaced (name : String) (argv : List String)
  | exited (code : Nat)
deriving DecidableEq, Repr

/-- The `cd` arm of `Shell::execute` (src/main.rs lines 29-42), in source
order: with an argument, `self.path` is pushed/assigned and `self.prompt`
is set to the new (uncanonicalized) path; with no argument `self.path` is
set to `self.home`.  Then `self.prompt` is rebuilt from
`self.path.canonicalize()` (the `?` returns the error with `self` already
mutated), and finally `chdir(self.path)?`.  (`to_str` cannot fail in the
string model.) -/
def cdStep (fs : FS) (sh : Shell) (args : List String) : ExecOutcome :=
  let sh1 :=
    match args.head? with
    | some p =>
        let np := cdApplyArg sh.path p
        { sh with path := np, prompt := np ++ " % " }
    | none => { sh with path := sh.home }
  match fs.canonicalize sh1.path with
  | none => .ret sh1 (.err "canonicalize failed")
  | some canon =>
      let sh2 := { sh1 with prompt := canon ++ " % " }
      if fs.chdirOk sh2.path then .ret sh2 .ok
      else .ret sh2 (.err "chdir failed")

/-- `Shell::execute` (src/main.rs lines 26-50): nothing to do without a
current command; `cd` is handled by `cdStep`; everything else goes to
`execute_external` with `self.path` as the working directory. -/
def execute (fs : FS) (sh : Shell) (oc : Option Command) : ExecOutcome :=
  match oc with
  | none => .ret sh .ok
  | some c =>
      if c.name = "cd" then cdStep fs sh c.args
      else
        match executeExternal fs c sh.path with
        | .ret r => .ret sh r
        | .replaced n a => .replaced n a
        | .exited k => .exited k

/-- From the source: `fork()` is invoked exactly when `Shell::execute`
reaches the external-dispatch arm, i.e. a command is present and its name
is not "cd". -/
def callsFork : Option Command → Bool
  | none => false
  | some c => c.name != "cd"

/-- `Shell::default` (src/main.rs lines 14-22): the `HOME` variable, or "/"
via `unwrap_or` when it is absent; prompt `"{home} % "`; `path` and `home`
both from it. -/
def shellDefault (homeVar : Option String) : Shell :=
  let home := homeVar.getD "/"
  ⟨home ++ " % ", home, home⟩

/-- How startup ends: with a constructed session, or with a fatal
`std::process::exit`. -/
inductive StartupOutcome where
  | session (sh : Shell)
  | fatal (code : Nat)
deriving DecidableEq, Repr

/-- Session construction at startup: `Shell::default()` never exits, for
any value of the `HOME` lookup. -/
def startup (homeVar : Option String) : StartupOutcome :=
  .session (shellDefault homeVar)

/-- The mutable state of the `main` loop: the shell session and the
editor's history list. -/
structure LoopState where
  shell : Shell
  history : List String
deriving DecidableEq, Repr

/-- What `rl.readline` produced: a line, end-of-input (rustyline
`ReadlineError::Eof`), an interrupt, or another read error. -/
inductive ReadlineResult where
  | ok (line : String)
  | eof
  | interrupted
  | readErr (msg : String)
deriving DecidableEq, Repr

/-- Outcome of one iteration of the `main` loop: `exitLoop` breaks out of
the loop (after which `main` returns `Ok(())`, process status 0); `next`
continues with the new state; `replaced`/`exited` when this process's
control never comes back to the loop. -/
inductive LoopOutcome where
  | exitLoop
  | next (st : LoopState)
  | replaced (name : String) (argv : List String)
  | exited (code : Nat)
deriving DecidableEq, Repr

/-- One iteration of `main`'s loop (src/main.rs lines 115-141): an empty
line continues; a line trimming to "exit" breaks; otherwise the line is
parsed and executed; on `Ok` the line is appended to history, on `Err` the
error is logged; any `readline` error — end-of-input included — is logged
and the loop continues. -/
def loopStep (fs : FS) (st : LoopState) (r : ReadlineResult) : LoopOutcome :=
  match r with
  | .ok line =>
      if line = "" then .next st
      else if trimStr line = "exit" then .exitLoop
      else
        match execute fs st.shell (some (Command.parse line)) with
        | .ret sh .ok => .next ⟨sh, st.history ++ [line]⟩
        | .ret sh (.err _) => .next ⟨sh, st.history⟩
        | .replaced n a => .replaced n a
        | .exited k => .exited k
  | _ => .next st

/-! Concrete OS oracles used by witnesses and counterexamples. -/

/-- Oracle: every canonicalization fails, chdir succeeds, fork lands in the
parent, wait succeeds. -/
def fsNone : FS := ⟨fun _ => none, fun _ => true, .parent, .ok 0, fun _ _ => false⟩

/-- Oracle: fork lands in the parent and the child exits with status 7;
canonicalization resolves "/a/b/.." to "/a" and "/link" to "/real". -/
def fsPar : FS :=
  ⟨fun p => if p = "/a/b/.." then some "/a" else if p = "/link" then some "/real" else none,
   fun _ => true, .parent, .ok 7, fun _ _ => true⟩

/-- Oracle: fork fails. -/
def fsFail : FS := ⟨fun _ => none, fun _ => true, .fail, .ok 0, fun _ _ => false⟩

/-- Oracle: fork lands in the child and execvp fails (program not found). -/
def fsChild : FS := ⟨fun _ => none, fun _ => true, .child, .ok 0, fun _ _ => false⟩

/-- Splitting a list made only of whitespace characters yields no token. -/
theorem splitWhitespaceAux_all_ws (l : List Char)
    (h : ∀ c ∈ l, c.isWhitespace = true) : splitWhitespaceAux l [] = [] := by
  induction l with
  | nil => rfl
  | cons c cs ih =>
      have hc : c.isWhitespace = true := h c (List.mem_cons_self c cs)
      simp only [splitWhitespaceAux, hc, if_true, List.isEmpty_nil]
      exact ih fun x hx => h x (List.mem_cons_of_mem c hx)

/-- Parsing a whitespace-only (in particular empty) line yields the command
with empty name and no arguments. -/
theorem parse_ws_only (line : String)
    (h : ∀ c ∈ line.data, c.isWhitespace = true) :
    Command.parse line = ⟨"", []⟩ := by
  have hs : splitWhitespace line = [] := splitWhitespaceAux_all_ws line.data h
  simp [Command.parse, hs]

/-- C8: Command::parse splits the line on runs of whitespace, the first
token is the name and the remaining tokens are the arguments in order; it
is a total function (a Lean def), and a whitespace-only (in particular
empty) line yields the command with empty name and no arguments. -/
theorem parse_splits_whitespace (line : String) :
    Command.parse line = ⟨(splitWhitespace line).headD "", (splitWhitespace line).tail⟩
    ∧ ((∀ c ∈ line.data, c.isWhitespace = true) → Command.parse line = ⟨"", []⟩) :=
  ⟨rfl, parse_ws_only line⟩

/-- Witness for C8 at the whitespace-only line " \t ". -/
theorem parse_splits_whitespace_wit : Command.parse " \t " = ⟨"", []⟩ :=
  (parse_splits_whitespace " \t ").2 (by decide)

/-- C6: a cd with extra arguments behaves exactly as cd with only the first
argument; the target written into the session is current_directory joined
with p when p is relative and p verbatim when p is absolute. -/
theorem cd_arg_target_extra_ignored (fs : FS) (sh : Shell) (p : String)
    (rest : List String) :
    execute fs sh (some ⟨"cd", p :: rest⟩) = execute fs sh (some ⟨"cd", [p]⟩)
    ∧ cdApplyArg sh.path p = (if isRelative p then pushPath sh.path p else p)
    ∧ (∀ sh2 r, execute fs sh (some ⟨"cd", [p]⟩) = .ret sh2 r →
        sh2.path = cdApplyArg sh.path p) := by
  refine ⟨rfl, rfl, fun sh2 r h => ?_⟩
  simp only [execute, cdStep, if_true, List.head?] at h
  rcases hc : fs.canonicalize (cdApplyArg sh.path p) with _ | canon
  · rw [hc] at h
    cases h
    rfl
  · rw [hc] at h
    dsimp only at h
    by_cases hd : fs.chdirOk (cdApplyArg sh.path p) = true
    · rw [if_pos hd] at h
      cases h
      rfl
    · rw [if_neg hd] at h
      cases h
      rfl

/-- Witness for C6: with two arguments the second is ignored, and the
session's path after the call is the joined target. -/
theorem cd_arg_target_extra_ignored_wit :
    execute fsNone ⟨"/a % ", "/a", "/h"⟩ (some ⟨"cd", ["b", "x"]⟩)
      = execute fsNone ⟨"/a % ", "/a", "/h"⟩ (some ⟨"cd", ["b"]⟩)
    ∧ (⟨"/a/b % ", "/a/b", "/h"⟩ : Shell).path = cdApplyArg "/a" "b" := by
  have h := cd_arg_target_extra_ignored fsNone ⟨"/a % ", "/a", "/h"⟩ "b" ["x"]
  exact ⟨h.1, h.2.2 ⟨"/a/b % ", "/a/b", "/h"⟩ (.err "canonicalize failed") (by decide)⟩

/-- C1 counterexample: cd "b" from "/a" with a failing canonicalization
returns an error, but path and prompt have already been changed — they are
not left exactly as they were. -/
theorem cd_fail_mutates_cex :
    execute fsNone ⟨"/a % ", "/a", "/h"⟩ (some ⟨"cd", ["b"]⟩)
      = .ret ⟨"/a/b % ", "/a/b", "/h"⟩ (.err "canonicalize failed")
    ∧ ("/a/b" : String) ≠ "/a" ∧ ("/a/b % " : String) ≠ "/a % " := by
  exact ⟨by decide, by decide, by decide⟩

/-- C1 amended: when the cd target fails to canonicalize, execute returns
an error, but current_directory has already been set to the unresolved
target (and, with an argument, prompt to the uncanonicalized target); only
the canonical-prompt update and the chdir are skipped. -/
theorem cd_fail_partial_mutation (fs : FS) (sh : Shell) (p : String) :
    (fs.canonicalize (cdApplyArg sh.path p) = none →
      execute fs sh (some ⟨"cd", [p]⟩)
        = .ret ⟨cdApplyArg sh.path p ++ " % ", cdApplyArg sh.path p, sh.home⟩
            (.err "canonicalize failed"))
    ∧ (fs.canonicalize sh.home = none →
      execute fs sh (some ⟨"cd", []⟩)
        = .ret ⟨sh.prompt, sh.home, sh.home⟩ (.err "canonicalize failed")) := by
  constructor
  · intro h
    simp only [execute, cdStep, List.head?, if_true]
    rw [h]
  · intro h
    simp only [execute, cdStep, List.head?, if_true]
    rw [h]

/-- Witness for C1 at cd "b" from "/a" and cd with no argument, under an
oracle whose canonicalization always fails. -/
theorem cd_fail_partial_mutation_wit :
    execute fsNone ⟨"/a % ", "/a", "/h"⟩ (some ⟨"cd", ["b"]⟩)
      = .ret ⟨cdApplyArg "/a" "b" ++ " % ", cdApplyArg "/a" "b", "/h"⟩
          (.err "canonicalize failed")
    ∧ execute fsNone ⟨"/a % ", "/a", "/h"⟩ (some ⟨"cd", []⟩)
      = .ret ⟨"/a % ", "/h", "/h"⟩ (.err "canonicalize failed") := by
  have h := cd_fail_partial_mutation fsNone ⟨"/a % ", "/a", "/h"⟩ "b"
  exact ⟨h.1 rfl, h.2 rfl⟩

/-- C2 counterexample: the whitespace-only line " " is not a no-op: it
parses to an empty command name, is dispatched to the fork-calling external
branch (observable as the fork-failure error when fork fails), and in the
parent it even lands in the history. -/
theorem whitespace_line_not_noop_cex :
    Command.parse " " = ⟨"", []⟩
    ∧ callsFork (some (Command.parse " ")) = true
    ∧ execute fsFail ⟨"/h % ", "/h", "/h"⟩ (some (Command.parse " "))
        = .ret ⟨"/h % ", "/h", "/h"⟩ (.err "Failed to fork process")
    ∧ loopStep fsPar ⟨⟨"/h % ", "/h", "/h"⟩, []⟩ (.ok " ")
        = .next ⟨⟨"/h % ", "/h", "/h"⟩, [" "]⟩ := by
  exact ⟨by decide, by decide, by decide, by decide⟩

/-- C2 amended: only the exactly-empty line is skipped as a no-op by the
main loop; a whitespace-only line parses to an empty command name, which is
dispatched to the external launcher and calls fork. -/
theorem empty_line_noop_whitespace_forks (fs : FS) (st : LoopState) (line : String) :
    loopStep fs st (.ok "") = .next st
    ∧ ((∀ c ∈ line.data, c.isWhitespace = true) →
        (Command.parse line).name = ""
        ∧ callsFork (some (Command.parse line)) = true) := by
  refine ⟨rfl, fun h => ?_⟩
  have hp : Command.parse line = ⟨"", []⟩ := parse_ws_only line h
  rw [hp]
  exact ⟨rfl, rfl⟩

/-- Witness for C2 at the line " ". -/
theorem empty_line_noop_whitespace_forks_wit :
    loopStep fsPar ⟨⟨"/h % ", "/h", "/h"⟩, []⟩ (.ok "")
      = .next ⟨⟨"/h % ", "/h", "/h"⟩, []⟩
    ∧ (Command.parse " ").name = ""
    ∧ callsFork (some (Command.parse " ")) = true := by
  have h := empty_line_noop_whitespace_forks fsPar ⟨⟨"/h % ", "/h", "/h"⟩, []⟩ " "
  exact ⟨h.1, h.2 (by decide)⟩

/-- C3, evaluating the code at the failing input: in the child, a failed
execvp makes execute_external RETURN the error to its caller — control
flows back into shell logic inside the child instead of terminating the
process.  By contrast, the argument-encoding failure path does exit the
child with status 1 via log_expect. -/
theorem child_execvp_failure_returns :
    executeExternal fsChild ⟨"nosuchprog", []⟩ "/" = .ret (.err "execvp failed")
    ∧ childBranch fsChild ⟨"x", [String.mk [Char.ofNat 0]]⟩ "/" = .exited 1 := by
  exact ⟨by decide, by decide⟩

/-- C4 counterexample: cd ".." from "/a/b" succeeds, yet leaves
current_directory as the non-canonical "/a/b/.." (its canonical form is
"/a", which only the prompt shows). -/
theorem path_not_canonical_cex :
    execute fsPar ⟨"/a/b % ", "/a/b", "/h"⟩ (some ⟨"cd", [".."]⟩)
      = .ret ⟨"/a % ", "/a/b/..", "/h"⟩ .ok
    ∧ fsPar.canonicalize "/a/b/.." = some "/a"
    ∧ ("/a/b/.." : String) ≠ "/a" := by
  exact ⟨by decide, by decide, by decide⟩

/-- C4 amended: after a successful cd with an argument, current_directory
holds the literal joined target — which need not be canonical — while only
the prompt is derived from the canonical form. -/
theorem cd_success_literal_path (fs : FS) (sh : Shell) (p canon : String)
    (h1 : fs.canonicalize (cdApplyArg sh.path p) = some canon)
    (h2 : fs.chdirOk (cdApplyArg sh.path p) = true) :
    execute fs sh (some ⟨"cd", [p]⟩)
      = .ret ⟨canon ++ " % ", cdApplyArg sh.path p, sh.home⟩ .ok := by
  simp only [execute, cdStep, List.head?, if_true]
  rw [h1]
  dsimp only
  rw [if_pos h2]

/-- Witness for C4 at cd ".." from "/a/b", canonical form "/a". -/
theorem cd_success_literal_path_wit :
    execute fsPar ⟨"/a/b % ", "/a/b", "/h"⟩ (some ⟨"cd", [".."]⟩)
      = .ret ⟨"/a" ++ " % ", cdApplyArg "/a/b" "..", "/h"⟩ .ok :=
  cd_success_literal_path fsPar ⟨"/a/b % ", "/a/b", "/h"⟩ ".." "/a"
    (by decide) (by decide)

/-- C5 counterexample: with home_directory "/link" whose canonical form is
"/real", cd with no arguments sets current_directory to "/link" verbatim,
not to the canonical form "/real". -/
theorem cd_home_not_canonical_cex :
    execute fsPar ⟨"p", "/cur", "/link"⟩ (some ⟨"cd", []⟩)
      = .ret ⟨"/real % ", "/link", "/link"⟩ .ok
    ∧ fsPar.canonicalize "/link" = some "/real"
    ∧ ("/link" : String) ≠ "/real" := by
  exact ⟨by decide, by decide, by decide⟩

/-- C5 amended: cd with zero arguments sets current_directory to
home_directory verbatim (not its canonical form), regardless of the prior
current_directory; the canonical form goes only into the prompt. -/
theorem cd_noarg_home_verbatim (fs : FS) (sh : Shell) (canon : String)
    (h1 : fs.canonicalize sh.home = some canon)
    (h2 : fs.chdirOk sh.home = true) :
    execute fs sh (some ⟨"cd", []⟩)
      = .ret ⟨canon ++ " % ", sh.home, sh.home⟩ .ok := by
  simp only [execute, cdStep, List.head?, if_true]
  rw [h1]
  dsimp only
  rw [if_pos h2]

/-- Witness for C5 with home "/link" canonicalizing to "/real", from a
prior current_directory "/cur". -/
theorem cd_noarg_home_verbatim_wit :
    execute fsPar ⟨"p", "/cur", "/link"⟩ (some ⟨"cd", []⟩)
      = .ret ⟨"/real" ++ " % ", "/link", "/link"⟩ .ok :=
  cd_noarg_home_verbatim fsPar ⟨"p", "/cur", "/link"⟩ "/real"
    (by decide) (by decide)

/-- C7 counterexample: with HOME absent, startup constructs a session (home
directory "/") instead of exiting with status 1. -/
theorem home_missing_no_exit_cex :
    startup none = .session ⟨"/ % ", "/", "/"⟩
    ∧ startup none ≠ .fatal 1 := by
  exact ⟨by decide, by decide⟩

/-- C7 amended: Shell::default never exits; a present HOME seeds prompt,
path and home from its value, and an absent HOME falls back to the default
home directory "/" via unwrap_or. -/
theorem startup_home_fallback (h : String) :
    startup (some h) = .session ⟨h ++ " % ", h, h⟩
    ∧ startup none = .session ⟨"/ % ", "/", "/"⟩ :=
  ⟨rfl, rfl⟩

/-- C9 counterexample: on end-of-input the loop continues with unchanged
state; it does not exit. -/
theorem eof_continues_cex :
    loopStep fsPar ⟨⟨"/h % ", "/h", "/h"⟩, []⟩ .eof
      = .next ⟨⟨"/h % ", "/h", "/h"⟩, []⟩
    ∧ loopStep fsPar ⟨⟨"/h % ", "/h", "/h"⟩, []⟩ .eof ≠ .exitLoop := by
  exact ⟨by decide, by decide⟩

/-- C9 amended: a readline error — end-of-input included — is logged and
the loop continues prompting with unchanged state; only the literal input
"exit" breaks the loop (after which main returns Ok and the process exits
with status 0). -/
theorem eof_loop_continues (fs : FS) (st : LoopState) :
    loopStep fs st .eof = .next st
    ∧ loopStep fs st .interrupted = .next st
    ∧ loopStep fs st (.ok "exit") = .exitLoop := by
  refine ⟨rfl, rfl, ?_⟩
  simp [loopStep, trimStr]

/-- C10: when fork succeeds in the parent and wait succeeds,
execute_external returns Ok whatever the child's exit status was; the main
loop then appends the line to the history. -/
theorem launch_success_ignores_status (fs : FS) (c : Command) (wd : String)
    (s : Nat) (st : LoopState) (line : String) (sh2 : Shell)
    (hf : fs.forkOutcome = .parent) (hw : fs.waitResult = .ok s) :
    executeExternal fs c wd = .ret .ok
    ∧ (line ≠ "" → trimStr line ≠ "exit" →
        execute fs st.shell (some (Command.parse line)) = .ret sh2 .ok →
        loopStep fs st (.ok line) = .next ⟨sh2, st.history ++ [line]⟩) := by
  constructor
  · simp only [executeExternal, hf, hw]
  · intro h1 h2 h3
    simp only [loopStep, if_neg h1, if_neg h2, h3]

/-- Witness for C10: a child exit status of 7 still yields Ok, and the
line "ls" is appended to the history. -/
theorem launch_success_ignores_status_wit :
    executeExternal fsPar ⟨"ls", []⟩ "/" = .ret .ok
    ∧ loopStep fsPar ⟨⟨"/h % ", "/h", "/h"⟩, []⟩ (.ok "ls")
        = .next ⟨⟨"/h % ", "/h", "/h"⟩, [] ++ ["ls"]⟩ := by
  have h := launch_success_ignores_status fsPar ⟨"ls", []⟩ "/" 7
    ⟨⟨"/h % ", "/h", "/h"⟩, []⟩ "ls" ⟨"/h % ", "/h", "/h"⟩ rfl rfl
  exact ⟨h.1, h.2 (by decide) (by decide) (by decide)⟩

end Mash
